import Mathlib

/-!
Shallow embedding of the `emulator_adapter` package: the `InputEvent`
value type (`emulator_adapter/core/input_event.py`) and the
`DolphinAdapter` dispatch/translation layer
(`emulator_adapter/adapters/dolphin_adapter.py`).

Python floats are modelled as rationals, Python strings as Lean strings,
the mutable adapter object as an explicit record threaded through the
operations, and the calls issued to the external `vgamepad` virtual
device as an explicit trace of actions.  A raised Python exception is an
explicit `raised` outcome.
-/

/-- Python `str.upper()` restricted to the ASCII letters that occur in the
control vocabulary (Lean's `Char.toUpper` agrees with Python there). -/
def pyUpper (s : String) : String := String.mk (s.data.map Char.toUpper)

/-- Python `int()` applied to a rational: truncation toward zero
(floor for nonnegative arguments, negated floor of the negation otherwise). -/
def truncToInt (q : ℚ) : ℤ := if 0 ≤ q then ⌊q⌋ else -⌊-q⌋

/-- Python `x or 0.0` on an optional float: `None` and `0.0` are falsy, so the
result is the value when present and nonzero, and `0` otherwise — which
coincides with `Option.getD _ 0`. -/
def pyOrZero (v : Option ℚ) : ℚ := v.getD 0

/-- The four event kinds of the `Literal` tag of `InputEvent.type`. -/
inductive EventType where
  | BUTTON
  | STICK
  | TRIGGER
  | DPAD
deriving DecidableEq

/-- `emulator_adapter/core/input_event.py`: the `InputEvent` dataclass. -/
structure InputEvent where
  type : EventType
  control : String
  value_x : Option ℚ := none
  value_y : Option ℚ := none
  pressed : Option Bool := none
deriving DecidableEq

/-- The `input_callback_dict` keyword argument accepted by `send_input`:
a dictionary whose `get` calls may each return a value or `None`. -/
structure CallbackDict where
  input_duration : Option ℚ
  input_release_event : Option InputEvent
deriving DecidableEq

/-- One call issued against the external `vgamepad` device (`self.gamepad`),
plus the `time.sleep` performed by `_handle_input_callback`. -/
inductive DeviceAction where
  | press_button (code : Nat)
  | release_button (code : Nat)
  | left_joystick (x y : ℤ)
  | right_joystick (x y : ℤ)
  | left_trigger (v : ℤ)
  | right_trigger (v : ℤ)
  | directional_pad (code : Nat)
  | update
  | reset
  | sleep (d : ℚ)
deriving DecidableEq

/-- The exceptions the adapter can raise. `notConnected` is the
`RuntimeError("Not connected...")`, `invalidControl` the
`ValueError("Invalid ...")` of the four handlers, and the last two model
the `TypeError`/`AttributeError` that `_handle_input_callback` hits when a
callback dictionary lacks its duration or release-event entry. -/
inductive AdapterError where
  | notConnected
  | invalidControl
  | typeError
  | attributeError
deriving DecidableEq

/-- Outcome of calling a Python method: normal return or a raised exception. -/
inductive PyOutcome where
  | ok
  | raised (e : AdapterError)
deriving DecidableEq

/-- The mutable state of a `DolphinAdapter` instance: the `gamepad` handle
(`None` or an opaque device handle, modelled by a `Nat` identity) and the
`connected` flag. The lookup tables are static and live at top level. -/
structure DolphinAdapter where
  gamepad : Option Nat
  connected : Bool
deriving DecidableEq

/-- `DolphinAdapter.__init__`: `gamepad = None`, `connected = False`. -/
def initAdapter : DolphinAdapter := { gamepad := none, connected := false }

/-! Device codes of the external `vgamepad` dependency
(`vgamepad/win/vigem_commons.py`, enums `DS4_BUTTONS` and
`DS4_DPAD_DIRECTIONS`), which the adapter's tables store as values. -/

def DS4_BUTTON_SQUARE : Nat := 1 <<< 4
def DS4_BUTTON_CROSS : Nat := 1 <<< 5
def DS4_BUTTON_CIRCLE : Nat := 1 <<< 6
def DS4_BUTTON_TRIANGLE : Nat := 1 <<< 7
def DS4_BUTTON_SHOULDER_LEFT : Nat := 1 <<< 8
def DS4_BUTTON_SHOULDER_RIGHT : Nat := 1 <<< 9
def DS4_BUTTON_SHARE : Nat := 1 <<< 12
def DS4_BUTTON_OPTIONS : Nat := 1 <<< 13
def DS4_BUTTON_THUMB_LEFT : Nat := 1 <<< 14
def DS4_BUTTON_THUMB_RIGHT : Nat := 1 <<< 15

/-- `DS4_DPAD_DIRECTIONS.DS4_BUTTON_DPAD_NORTH = 0x0` in `vgamepad`. -/
def DS4_BUTTON_DPAD_NORTH : Nat := 0
def DS4_BUTTON_DPAD_EAST : Nat := 2
def DS4_BUTTON_DPAD_SOUTH : Nat := 4
def DS4_BUTTON_DPAD_WEST : Nat := 6
/-- `DS4_DPAD_DIRECTIONS.DS4_BUTTON_DPAD_NONE = 0x8` in `vgamepad`. -/
def DS4_BUTTON_DPAD_NONE : Nat := 8

/-- `self.button_map` of `DolphinAdapter.__init__`. -/
def button_map : List (String × Nat) :=
  [("CROSS", DS4_BUTTON_CROSS),
   ("CIRCLE", DS4_BUTTON_CIRCLE),
   ("SQUARE", DS4_BUTTON_SQUARE),
   ("TRIANGLE", DS4_BUTTON_TRIANGLE),
   ("OPTIONS", DS4_BUTTON_OPTIONS),
   ("SHARE", DS4_BUTTON_SHARE),
   ("L1", DS4_BUTTON_SHOULDER_LEFT),
   ("R1", DS4_BUTTON_SHOULDER_RIGHT),
   ("L3", DS4_BUTTON_THUMB_LEFT),
   ("R3", DS4_BUTTON_THUMB_RIGHT)]

/-- `self.dpad_map` of `DolphinAdapter.__init__`. -/
def dpad_map : List (String × Nat) :=
  [("DPAD_UP", DS4_BUTTON_DPAD_NORTH),
   ("DPAD_DOWN", DS4_BUTTON_DPAD_SOUTH),
   ("DPAD_LEFT", DS4_BUTTON_DPAD_WEST),
   ("DPAD_RIGHT", DS4_BUTTON_DPAD_EAST)]

/-- `self.trigger_map` of `DolphinAdapter.__init__`. -/
def trigger_map : List (String × String) :=
  [("L2", "left_trigger"), ("R2", "right_trigger")]

/-- `self.stick_map` of `DolphinAdapter.__init__`. -/
def stick_map : List (String × String) :=
  [("LEFT_STICK", "left_joystick"), ("RIGHT_STICK", "right_joystick")]

/-- `DolphinAdapter._handle_button`. Python tests the looked-up code with
`if not btn:`, which fires both when the key is absent (`None`) and when the
code is the integer `0` (falsy). -/
def handleButton (e : InputEvent) : Except AdapterError (List DeviceAction) :=
  match button_map.lookup (pyUpper e.control) with
  | none => .error .invalidControl
  | some btn =>
    if btn = 0 then .error .invalidControl
    else
      if e.pressed = some true then .ok [.press_button btn, .update]
      else .ok [.release_button btn, .update]

/-- `DolphinAdapter._handle_stick` without its trailing callback step:
membership test in `stick_map`, scaling of each axis by 255 with `int()`
truncation (missing axes default to `0.0` via `or`), dispatch on the
uppercased control name, then `update`. -/
def handleStickBase (e : InputEvent) : Except AdapterError (List DeviceAction) :=
  if (stick_map.lookup (pyUpper e.control)).isNone then .error .invalidControl
  else
    let x := truncToInt (pyOrZero e.value_x * 255)
    let y := truncToInt (pyOrZero e.value_y * 255)
    if pyUpper e.control = "LEFT_STICK" then .ok [.left_joystick x y, .update]
    else .ok [.right_joystick x y, .update]

/-- `DolphinAdapter._handle_trigger`. -/
def handleTrigger (e : InputEvent) : Except AdapterError (List DeviceAction) :=
  if (trigger_map.lookup (pyUpper e.control)).isNone then .error .invalidControl
  else
    let v := truncToInt (pyOrZero e.value_x * 255)
    if pyUpper e.control = "L2" then .ok [.left_trigger v, .update]
    else .ok [.right_trigger v, .update]

/-- `DolphinAdapter._handle_dpad`. As in `_handle_button`, Python tests the
looked-up direction with `if not direction:`, so a direction code of `0`
(which is `DS4_BUTTON_DPAD_NORTH`) is rejected like an absent key. -/
def handleDpad (e : InputEvent) : Except AdapterError (List DeviceAction) :=
  match dpad_map.lookup (pyUpper e.control) with
  | none => .error .invalidControl
  | some direction =>
    if direction = 0 then .error .invalidControl
    else
      if e.pressed = some true then .ok [.directional_pad direction, .update]
      else .ok [.directional_pad DS4_BUTTON_DPAD_NONE, .update]

/-- `DolphinAdapter.send_input` when no `input_callback_dict` keyword is
passed (in particular the recursive call made by `_handle_input_callback`):
the connection guard `if not self.connected or not self.gamepad:` followed by
dispatch on `event.type`. The `else: raise ValueError("Unknown input type")`
branch is unreachable because the `Literal` tag is a closed type here. -/
def sendInputNoCb (a : DolphinAdapter) (e : InputEvent) :
    PyOutcome × List DeviceAction :=
  if a.connected = false ∨ a.gamepad = none then (.raised .notConnected, [])
  else
    match
      (match e.type with
       | .BUTTON => handleButton e
       | .STICK => handleStickBase e
       | .TRIGGER => handleTrigger e
       | .DPAD => handleDpad e) with
    | .error err => (.raised err, [])
    | .ok tr => (.ok, tr)

/-- `DolphinAdapter.send_input` with an optional `input_callback_dict`
keyword argument. Only `_handle_stick` consults the keyword: after its
stick call and `update`, `_handle_input_callback` reads `input_duration`
and `input_release_event` from the dictionary, performs `time.sleep` on the
duration, then re-invokes `send_input` on the release event with no keyword
arguments. A missing duration makes `time.sleep(None)` raise a `TypeError`
before sleeping; a missing release event makes `send_input(None)` raise an
`AttributeError` after the sleep. -/
def sendInput (a : DolphinAdapter) (e : InputEvent) (cb : Option CallbackDict) :
    PyOutcome × List DeviceAction :=
  if a.connected = false ∨ a.gamepad = none then (.raised .notConnected, [])
  else
    match e.type with
    | .STICK =>
      match handleStickBase e with
      | .error err => (.raised err, [])
      | .ok tr =>
        match cb with
        | none => (.ok, tr)
        | some d =>
          match d.input_duration with
          | none => (.raised .typeError, tr)
          | some dur =>
            match d.input_release_event with
            | none => (.raised .attributeError, tr ++ [.sleep dur])
            | some rel =>
              let rec2 := sendInputNoCb a rel
              (rec2.1, tr ++ [.sleep dur] ++ rec2.2)
    | _ => sendInputNoCb a e

/-- `DolphinAdapter.disconnect`: when `connected`, issue `reset` and
`update` on the device (if a handle is present) and clear the flag; the
`gamepad` attribute itself is never reassigned. When not connected, do
nothing. No branch raises. -/
def disconnect (a : DolphinAdapter) : DolphinAdapter × List DeviceAction :=
  if a.connected then
    ({ a with connected := false },
     match a.gamepad with
     | some _ => [.reset, .update]
     | none => [])
  else (a, [])

/-- Whether the event's control resolves in the lookup table of its kind
(dictionary membership only, before any falsiness test on the value). -/
def controlKnown (e : InputEvent) : Bool :=
  match e.type with
  | .BUTTON => (button_map.lookup (pyUpper e.control)).isSome
  | .STICK => (stick_map.lookup (pyUpper e.control)).isSome
  | .TRIGGER => (trigger_map.lookup (pyUpper e.control)).isSome
  | .DPAD => (dpad_map.lookup (pyUpper e.control)).isSome

/-- One externally triggerable operation on an adapter, for reachability:
a `connect()` call that succeeds yielding a fresh handle, a `connect()`
call whose `vg.VDS4Gamepad()` acquisition raises (state untouched, since
the assignments follow the acquisition), a `send_input` call (which never
reassigns `gamepad` or `connected`), or a `disconnect()` call. -/
inductive AdapterOp where
  | connectOk (h : Nat)
  | connectFail
  | send (e : InputEvent) (cb : Option CallbackDict)
  | disc

/-- State transition of one operation (`DolphinAdapter.connect`,
`send_input`, `disconnect`). -/
def stepOp (a : DolphinAdapter) : AdapterOp → DolphinAdapter
  | .connectOk h => { gamepad := some h, connected := true }
  | .connectFail => a
  | .send _ _ => a
  | .disc => (disconnect a).1

/-- Run a sequence of operations from a given adapter state. -/
def runOps (a : DolphinAdapter) (ops : List AdapterOp) : DolphinAdapter :=
  ops.foldl stepOp a

/-- A connected adapter with handle `1`, used as concrete test state. -/
def connAdapter : DolphinAdapter := { gamepad := some 1, connected := true }

/-- C1: for every `InputEvent` of any kind (and any optional callback
argument), calling `send_input` while `connected` is false raises the
not-connected `RuntimeError` and issues no device calls. -/
theorem send_input_requires_connection (a : DolphinAdapter) (e : InputEvent)
    (cb : Option CallbackDict) (h : a.connected = false) :
    sendInput a e cb = (.raised .notConnected, []) := by
  simp [sendInput, h]

/-- C1 witness: on a fresh adapter (before any `connect`), a button press
event fails with the not-connected error and an empty trace. -/
theorem send_input_requires_connection_witness :
    sendInput initAdapter ⟨.BUTTON, "CROSS", none, none, some true⟩ none
      = (.raised .notConnected, []) :=
  send_input_requires_connection initAdapter _ none rfl

/-- C2 counterexample: on a connected adapter, a Stick event with control
`LEFT` (x=0.5, y=-0.75) does not issue a left-stick call: it raises the
invalid-control `ValueError` with an empty trace, because the stick table
keys are `LEFT_STICK`/`RIGHT_STICK`; conversely `LEFT_STICK` — a control
that is neither `LEFT` nor `RIGHT` — succeeds. -/
theorem stick_control_left_counterexample :
    sendInput connAdapter ⟨.STICK, "LEFT", some (1/2), some (-(3/4)), none⟩ none
      = (.raised .invalidControl, [])
    ∧ sendInput connAdapter ⟨.STICK, "LEFT_STICK", some (1/2), some (-(3/4)), none⟩ none
      = (.ok, [.left_joystick 127 (-191), .update]) := by
  constructor
  · decide
  · norm_num +decide [sendInput, handleStickBase, truncToInt, pyOrZero, connAdapter]

/-- C2 amended: on a connected adapter, a Stick event whose control
uppercases to `LEFT_STICK`, with x=0.5 and y=-0.75, issues exactly one
left-stick call with device values 127 and -191 (each coordinate multiplied
by 255 and truncated toward zero) followed by exactly one commit; and every
Stick event whose control is absent from the stick table (so neither
`LEFT_STICK` nor `RIGHT_STICK`, case-insensitively) raises the
invalid-control `ValueError` with no device calls. -/
theorem stick_left_scaling_amended (a : DolphinAdapter)
    (hc : a.connected = true) (hg : a.gamepad ≠ none) :
    (∀ s : String, pyUpper s = "LEFT_STICK" →
      sendInput a ⟨.STICK, s, some (1/2), some (-(3/4)), none⟩ none
        = (.ok, [.left_joystick 127 (-191), .update]))
    ∧ (∀ (e : InputEvent) (cb : Option CallbackDict), e.type = .STICK →
        stick_map.lookup (pyUpper e.control) = none →
        sendInput a e cb = (.raised .invalidControl, [])) := by
  constructor
  · intro s hs
    norm_num +decide [sendInput, handleStickBase, truncToInt, pyOrZero, hs, hc, hg]
  · intro e cb he hl
    simp [sendInput, he, handleStickBase, hl, hc, hg]

/-- C2 amended witness: the lowercase control `left_stick` with x=0.5,
y=-0.75 yields exactly the scaled left-stick call and one commit on a
connected adapter, and the control `up` (absent from the stick table) is
rejected with no device calls. -/
theorem stick_left_scaling_amended_witness :
    sendInput connAdapter ⟨.STICK, "left_stick", some (1/2), some (-(3/4)), none⟩ none
      = (.ok, [.left_joystick 127 (-191), .update])
    ∧ sendInput connAdapter ⟨.STICK, "up", none, none, none⟩ none
      = (.raised .invalidControl, []) :=
  ⟨(stick_left_scaling_amended connAdapter rfl (by decide)).1 "left_stick" (by decide),
   (stick_left_scaling_amended connAdapter rfl (by decide)).2
     ⟨.STICK, "up", none, none, none⟩ none rfl (by decide)⟩

/-- C3: evaluation of the d-pad handler at the failing input. The control
`DPAD_UP` is present in `dpad_map` and maps to `DS4_BUTTON_DPAD_NORTH = 0`,
yet a release event for it raises the invalid-control `ValueError` with no
device calls, because `_handle_dpad` tests the looked-up code with
`if not direction:` and `0` is falsy in Python; the control `UP` named by
the claim is absent from the table altogether; a release of `DPAD_DOWN`
shows the intended behavior (one neutral d-pad call, one commit). -/
theorem dpad_up_release_code_bug :
    sendInput connAdapter ⟨.DPAD, "DPAD_UP", none, none, some false⟩ none
      = (.raised .invalidControl, [])
    ∧ sendInput connAdapter ⟨.DPAD, "UP", none, none, some false⟩ none
      = (.raised .invalidControl, [])
    ∧ sendInput connAdapter ⟨.DPAD, "DPAD_DOWN", none, none, some false⟩ none
      = (.ok, [.directional_pad DS4_BUTTON_DPAD_NONE, .update])
    ∧ dpad_map.lookup "DPAD_UP" = some DS4_BUTTON_DPAD_NORTH := by
  refine ⟨by decide, by decide, by decide, by decide⟩

/-- C4: on a connected adapter, any event of a recognized kind whose control
does not resolve in that kind's lookup table raises the invalid-control
`ValueError` and issues no device calls at all (no press, release, stick,
trigger or d-pad call and no commit), for any optional callback argument. -/
theorem invalid_control_rejected (a : DolphinAdapter) (e : InputEvent)
    (cb : Option CallbackDict) (hc : a.connected = true) (hg : a.gamepad ≠ none)
    (h : controlKnown e = false) :
    sendInput a e cb = (.raised .invalidControl, []) := by
  cases hty : e.type
  case BUTTON =>
    cases hl : button_map.lookup (pyUpper e.control)
    case none => simp [sendInput, sendInputNoCb, handleButton, hty, hl, hc, hg]
    case some b => simp [controlKnown, hty, hl] at h
  case STICK =>
    cases hl : stick_map.lookup (pyUpper e.control)
    case none => simp [sendInput, handleStickBase, hty, hl, hc, hg]
    case some b => simp [controlKnown, hty, hl] at h
  case TRIGGER =>
    cases hl : trigger_map.lookup (pyUpper e.control)
    case none => simp [sendInput, sendInputNoCb, handleTrigger, hty, hl, hc, hg]
    case some b => simp [controlKnown, hty, hl] at h
  case DPAD =>
    cases hl : dpad_map.lookup (pyUpper e.control)
    case none => simp [sendInput, sendInputNoCb, handleDpad, hty, hl, hc, hg]
    case some b => simp [controlKnown, hty, hl] at h

/-- C4 witness: on a connected adapter, the unrecognized button control
`INVALID_BUTTON` is rejected with an empty device trace. -/
theorem invalid_control_rejected_witness :
    sendInput connAdapter ⟨.BUTTON, "INVALID_BUTTON", none, none, some true⟩ none
      = (.raised .invalidControl, []) :=
  invalid_control_rejected connAdapter _ none rfl (by decide) (by decide)

/-- C5: for every entry (B, code) of the button table and every spelling `s`
of B in any letter case, a pressed Button event issues exactly one press
call with `code` followed by exactly one commit and no release call, and a
released Button event issues exactly one release call with `code` followed
by exactly one commit and no press call. -/
theorem button_press_release_behavior (a : DolphinAdapter)
    (hc : a.connected = true) (hg : a.gamepad ≠ none)
    (B : String) (code : Nat) (hB : (B, code) ∈ button_map)
    (s : String) (hs : pyUpper s = B) :
    sendInput a ⟨.BUTTON, s, none, none, some true⟩ none
      = (.ok, [.press_button code, .update])
    ∧ sendInput a ⟨.BUTTON, s, none, none, some false⟩ none
      = (.ok, [.release_button code, .update]) := by
  fin_cases hB <;>
    exact ⟨by simp +decide [sendInput, sendInputNoCb, handleButton, hs, hc, hg],
           by simp +decide [sendInput, sendInputNoCb, handleButton, hs, hc, hg]⟩

/-- C5 witness: the lowercase spelling `cross` of the button `CROSS`
(device code 32) gives exactly one press call plus one commit when pressed,
and exactly one release call plus one commit when released. -/
theorem button_press_release_behavior_witness :
    sendInput connAdapter ⟨.BUTTON, "cross", none, none, some true⟩ none
      = (.ok, [.press_button 32, .update])
    ∧ sendInput connAdapter ⟨.BUTTON, "cross", none, none, some false⟩ none
      = (.ok, [.release_button 32, .update]) :=
  button_press_release_behavior connAdapter rfl (by decide) "CROSS" 32
    (by decide) "cross" (by decide)

/-- C6 counterexample: disconnecting a connected adapter does issue one
reset and one commit and clears `connected`, but the connection handle is
NOT released: `gamepad` still holds the handle afterwards, refuting the
claim that no connection handle remains stored. -/
theorem disconnect_retains_handle_counterexample :
    disconnect connAdapter
      = ({ gamepad := some 1, connected := false }, [.reset, .update])
    ∧ (disconnect connAdapter).1.gamepad ≠ none := by
  refine ⟨by decide, by decide⟩

/-- C6 amended: when `disconnect` is called on a connected adapter holding a
handle, it issues exactly one reset-all-inputs command followed by exactly
one commit and sets `connected` to false; the `gamepad` attribute is left
unchanged, so the handle remains stored in the adapter. -/
theorem disconnect_connected_amended (a : DolphinAdapter) (g : Nat)
    (hg : a.gamepad = some g) (hc : a.connected = true) :
    disconnect a = ({ a with connected := false }, [.reset, .update])
    ∧ (disconnect a).1.gamepad = some g := by
  simp [disconnect, hc, hg]

/-- C6 amended witness: disconnecting the connected adapter with handle 1
issues reset then commit, clears `connected`, and keeps `gamepad = some 1`. -/
theorem disconnect_connected_amended_witness :
    disconnect connAdapter
      = ({ connAdapter with connected := false }, [.reset, .update])
    ∧ (disconnect connAdapter).1.gamepad = some 1 :=
  disconnect_connected_amended connAdapter 1 rfl rfl

/-- C7: `disconnect` on a non-connected adapter is a no-op (same state, no
device calls, and, the model being total, no error); after any `disconnect`
the adapter is not connected, and a second `disconnect` in a row is again a
no-op issuing no device calls, leaving `connected` false both times. -/
theorem disconnect_safe_idempotent (a : DolphinAdapter) :
    (a.connected = false → disconnect a = (a, []))
    ∧ (disconnect a).1.connected = false
    ∧ disconnect (disconnect a).1 = ((disconnect a).1, []) := by
  by_cases h : a.connected = true
  · simp [disconnect, h]
  · have h' : a.connected = false := by simpa using h
    simp [disconnect, h']

/-- C7 witness: on a fresh (never connected) adapter, `disconnect` changes
nothing and issues nothing, and `connected` stays false. -/
theorem disconnect_safe_idempotent_witness :
    disconnect initAdapter = (initAdapter, [])
    ∧ (disconnect initAdapter).1.connected = false :=
  ⟨(disconnect_safe_idempotent initAdapter).1 rfl,
   (disconnect_safe_idempotent initAdapter).2.1⟩

/-- C8: when a stick event is submitted with a deferred-release descriptor
carrying a duration `d` and a release event `r`, the adapter first issues
the stick call and its commit, then blocks by sleeping for `d`, and then
invokes `send_input` exactly once with `r` (with no descriptor of its own):
the resulting trace is the stick trace, the sleep, then the release call's
trace in that order, and the outcome is the release call's outcome. No
handler other than the stick handler consults the descriptor: for every
event of any other kind the descriptor is ignored entirely. -/
theorem stick_deferred_release (a : DolphinAdapter)
    (hc : a.connected = true) (hg : a.gamepad ≠ none)
    (e : InputEvent) (he : e.type = .STICK)
    (tr : List DeviceAction) (hok : handleStickBase e = .ok tr)
    (d : ℚ) (r : InputEvent) :
    sendInput a e (some ⟨some d, some r⟩)
      = ((sendInput a r none).1, tr ++ [.sleep d] ++ (sendInput a r none).2)
    ∧ (∀ (e2 : InputEvent) (cb : Option CallbackDict), e2.type ≠ .STICK →
        sendInput a e2 cb = sendInput a e2 none) := by
  have hgg : ¬(a.connected = false ∨ a.gamepad = none) := by simp [hc, hg]
  have hnone : ∀ e' : InputEvent, sendInput a e' none = sendInputNoCb a e' := by
    intro e'
    cases h : e'.type <;>
      cases hsb : handleStickBase e' <;>
      simp [sendInput, sendInputNoCb, hgg, h, hsb]
  constructor
  · rw [hnone r]
    simp [sendInput, he, hok, hc, hg]
  · intro e2 cb h2
    rw [hnone e2]
    cases ht2 : e2.type <;> simp [ht2] at h2 <;>
      simp [sendInput, sendInputNoCb, ht2, hgg]

/-- C8 witness: a left-stick centring event with a descriptor of duration 1
and release event `Button cross pressed` produces the stick call, the
commit, the sleep, and then exactly the trace and outcome of sending the
release event. -/
theorem stick_deferred_release_witness :
    sendInput connAdapter ⟨.STICK, "LEFT_STICK", none, none, none⟩
        (some ⟨some 1, some ⟨.BUTTON, "cross", none, none, some true⟩⟩)
      = ((sendInput connAdapter ⟨.BUTTON, "cross", none, none, some true⟩ none).1,
         [.left_joystick 0 0, .update] ++ [.sleep 1]
           ++ (sendInput connAdapter ⟨.BUTTON, "cross", none, none, some true⟩ none).2) :=
  (stick_deferred_release connAdapter rfl (by decide) _ rfl
    [.left_joystick 0 0, .update]
    (by simp +decide [handleStickBase, truncToInt, pyOrZero]) 1 _).1

/-- C9: in every state reachable from a freshly constructed adapter by any
sequence of connect (successful or failing), send_input and disconnect
operations, `connected = true` implies a device handle is stored; and
`send_input` issues no device call whatsoever (and raises the not-connected
error) whenever `connected` is false. -/
theorem adapter_connection_invariant (ops : List AdapterOp) :
    ((runOps initAdapter ops).connected = true →
      (runOps initAdapter ops).gamepad ≠ none)
    ∧ (∀ (a : DolphinAdapter) (e : InputEvent) (cb : Option CallbackDict),
        a.connected = false → sendInput a e cb = (.raised .notConnected, [])) := by
  have key : ∀ (l : List AdapterOp) (a : DolphinAdapter),
      (a.connected = true → a.gamepad ≠ none) →
      ((runOps a l).connected = true → (runOps a l).gamepad ≠ none) := by
    intro l
    induction l with
    | nil => intro a h; exact h
    | cons op rest ih =>
      intro a h
      have hstep : (stepOp a op).connected = true → (stepOp a op).gamepad ≠ none := by
        cases op with
        | connectOk g => simp [stepOp]
        | connectFail => exact h
        | send e cb => exact h
        | disc =>
          by_cases hca : a.connected = true
          · simp [stepOp, disconnect, hca]
          · have hca' : a.connected = false := by
              cases hb : a.connected
              · rfl
              · exact absurd hb hca
            simp [stepOp, disconnect, hca']
      have : runOps a (op :: rest) = runOps (stepOp a op) rest := by
        simp [runOps]
      rw [this]
      exact ih (stepOp a op) hstep
  refine ⟨key ops initAdapter (by simp [initAdapter]), ?_⟩
  intro a e cb h
  simp [sendInput, h]

/-- C9 witness: after a successful connect the reachable state stores a
handle, and a `send_input` on a disconnected adapter yields the
not-connected error with an empty trace. -/
theorem adapter_connection_invariant_witness :
    (runOps initAdapter [AdapterOp.connectOk 5]).gamepad ≠ none
    ∧ sendInput initAdapter ⟨.DPAD, "DPAD_DOWN", none, none, some true⟩ none
      = (.raised .notConnected, []) :=
  ⟨(adapter_connection_invariant [AdapterOp.connectOk 5]).1 (by decide),
   (adapter_connection_invariant []).2 initAdapter _ none rfl⟩

/-- C10: on a connected adapter, a stick event with both axis fields absent
succeeds and issues the corresponding stick call with both coordinates
scaled to 0, followed by exactly one commit; a trigger event with its axis
field absent succeeds and issues the corresponding trigger call with value
0, followed by exactly one commit — for either stick and either trigger,
in any letter case. -/
theorem missing_axis_defaults_zero (a : DolphinAdapter)
    (hc : a.connected = true) (hg : a.gamepad ≠ none) :
    (∀ s : String, pyUpper s = "LEFT_STICK" →
      sendInput a ⟨.STICK, s, none, none, none⟩ none
        = (.ok, [.left_joystick 0 0, .update]))
    ∧ (∀ s : String, pyUpper s = "RIGHT_STICK" →
      sendInput a ⟨.STICK, s, none, none, none⟩ none
        = (.ok, [.right_joystick 0 0, .update]))
    ∧ (∀ s : String, pyUpper s = "L2" →
      sendInput a ⟨.TRIGGER, s, none, none, none⟩ none
        = (.ok, [.left_trigger 0, .update]))
    ∧ (∀ s : String, pyUpper s = "R2" →
      sendInput a ⟨.TRIGGER, s, none, none, none⟩ none
        = (.ok, [.right_trigger 0, .update])) := by
  refine ⟨fun s hs => ?_, fun s hs => ?_, fun s hs => ?_, fun s hs => ?_⟩ <;>
    simp +decide [sendInput, sendInputNoCb, handleStickBase, handleTrigger,
      truncToInt, pyOrZero, hs, hc, hg]

/-- C10 witness: concrete missing-axis stick and trigger events on the
connected adapter yield the zero-valued device calls and one commit each. -/
theorem missing_axis_defaults_zero_witness :
    sendInput connAdapter ⟨.STICK, "left_stick", none, none, none⟩ none
      = (.ok, [.left_joystick 0 0, .update])
    ∧ sendInput connAdapter ⟨.TRIGGER, "r2", none, none, none⟩ none
      = (.ok, [.right_trigger 0, .update]) :=
  ⟨(missing_axis_defaults_zero connAdapter rfl (by decide)).1 "left_stick" (by decide),
   (missing_axis_defaults_zero connAdapter rfl (by decide)).2.2.2 "r2" (by decide)⟩
